import Mathlib

/-!
# AuDite — verification of the credential-verification and admin-management flows

Shallow embedding of the login/signup handler (`Login.handleSubmit` in the
frontend bundle), the admin dashboard actions (`handleCreateDoctor`,
`handleDeleteDoctor`, `generateDoctorId` in `AdminDashboard.jsx`) and the
Firestore-style equality queries they issue.  Documents are association lists
of string fields; the external store is a pair of collections (`doctors`,
`admins`); fallibility of the store (a query or write raising) is an explicit
boolean parameter; the observable outcome of a handler (alerts, session
writes, navigation, button state, timers, issued queries) is a record.
-/

namespace AuDite

/-- A Firestore document's data: an association list of field name / value. -/
abbrev Doc := List (String × String)

/-- Field lookup in a document (first binding wins, as produced by our
object-building operations below, which keep at most one binding per key). -/
def getField (d : Doc) (f : String) : Option String :=
  (d.find? (fun p => p.1 == f)).map (fun p => p.2)

/-- JS object update `{...d, k: v}` for a single key: any existing binding of
`k` is replaced, the new binding wins. -/
def jsSet (d : Doc) (k v : String) : Doc :=
  d.filter (fun p => p.1 != k) ++ [(k, v)]

/-- JS object spread `{...base, ...over}`: fields of `over` override `base`. -/
def jsSpread (base over : Doc) : Doc :=
  over.foldl (fun acc p => jsSet acc p.1 p.2) base

/-- An equality-filtered Firestore query: collection name and the list of
`where(field, eqeq, value)` filters, in source order. -/
structure QuerySpec where
  coll : String
  filters : List (String × String)
deriving Repr, DecidableEq

/-- A document matches a filter list iff every filtered field is present with
exactly the filtered value. -/
def matchesFilters (d : Doc) (fs : List (String × String)) : Bool :=
  fs.all (fun f => getField d f.1 == some f.2)

/-- `getDocs` on an equality query: the sub-list of (id, data) entries of the
collection whose data matches every filter, in collection order. -/
def runQuery (docs : List (String × Doc)) (fs : List (String × String)) :
    List (String × Doc) :=
  docs.filter (fun e => matchesFilters e.2 fs)

/-- The identity store: the two collections the login flow consults. -/
structure DB where
  doctors : List (String × Doc)
  admins : List (String × Doc)

/-! ## `generateDoctorId` (AdminDashboard.jsx)

`'DR' + Math.random().toString(36).substr(2, 8).toUpperCase()`.

The underlying random number is represented by the list of fractional
base-36 digits that `Number.prototype.toString(36)` prints for it: the
empty list for the value `0` (printed `"0"`), otherwise a non-empty list
of digits `< 36` (printed `"0."` followed by one lowercase base-36
character per digit, no trailing zeros).  E.g. the possible return value
`0.5` of `Math.random()` prints as `"0.i"` and is represented by `[18]`. -/

/-- The base-36 digit characters `toString(36)` uses: `0`-`9` then `a`-`z`. -/
def digitChar36 (d : Nat) : Char :=
  if d < 10 then Char.ofNat (48 + d) else Char.ofNat (87 + d)

/-- `Number.prototype.toString(36)` on a value in `[0, 1)`, given its
fractional base-36 digit expansion (empty for the value zero). -/
def jsNumToStringBase36 (fracDigits : List Nat) : String :=
  if fracDigits.isEmpty then "0"
  else "0." ++ String.mk (fracDigits.map digitChar36)

/-- `String.prototype.substr(start, len)`: up to `len` characters starting at
index `start` (empty when `start` is past the end). -/
def jsSubstr (s : String) (start len : Nat) : String :=
  String.mk ((s.toList.drop start).take len)

/-- `String.prototype.toUpperCase` (ASCII, which is all that occurs here). -/
def jsToUpperCase (s : String) : String :=
  String.mk (s.toList.map Char.toUpper)

/-- `generateDoctorId` from AdminDashboard.jsx, parameterised by the digit
expansion of the `Math.random()` result. -/
def generateDoctorId (fracDigits : List Nat) : String :=
  "DR" ++ jsToUpperCase (jsSubstr (jsNumToStringBase36 fracDigits) 2 8)

/-- Uppercase base-36 alphanumeric character: `0`-`9` or `A`-`Z`. -/
def isUpperBase36 (c : Char) : Bool :=
  (48 ≤ c.toNat && c.toNat ≤ 57) || (65 ≤ c.toNat && c.toNat ≤ 90)

/-- The identifier pattern as the spec states it: `DR` followed by exactly 8
uppercase base-36 alphanumeric characters. -/
def specDoctorIdPattern (s : String) : Bool :=
  s.length == 10 && s.toList.take 2 == ['D', 'R']
    && (s.toList.drop 2).all isUpperBase36

example : generateDoctorId [18] = "DRI" := by decide

example : generateDoctorId [10, 11, 12, 13, 14, 15, 16, 17, 0] = "DRABCDEFGH" := by decide

example : specDoctorIdPattern "DR8A3F2B1C" = true := by decide

/-! ## `Login.handleSubmit` (frontend bundle): login branch

The handler captures the submit button's original label, swaps it to
`Signing In...` and disables it, then dispatches on the selected role:

* `role === 'doctor'`: equality query on `doctors` over `(doctorId, password)`;
  a non-empty result writes `localStorage.currentUser = {...data, id}` and
  navigates to `/dashboard` after 1500 ms; an empty result alerts
  `Invalid Doctor ID or password!` and restores the button; a raised query
  error alerts `Login error. Please try again.` and restores the button.
* the literal guard `userId === 'user1234' && password === '1234' &&
  role === 'user'` navigates to `/user` with no query and no session write;
* `role === 'admin'`: equality query on `admins` over `(email, password)`;
  a non-empty result navigates to `/admindashboard` (no session write);
  empty result and raised error behave as for the doctor branch with the
  alert `Invalid admin credentials!` respectively the same generic message;
* anything else alerts `Invalid credentials or role mismatch!` and restores
  the button.

`qerr` says whether the store raises on this attempt.  Every branch defers
its user-visible step behind one 1500 ms timer. -/

/-- Observable outcome of a completed login attempt. -/
structure LoginOutcome where
  /-- the equality queries issued against the store, in order -/
  queries : List QuerySpec
  /-- the alert shown to the user, if any -/
  alert : Option String
  /-- the client-local session write `(key, object)`, if any -/
  sessionWrite : Option (String × Doc)
  /-- the navigation target, if any -/
  navigate : Option String
  /-- the submit button's final label -/
  buttonLabel : String
  /-- whether the submit button ends disabled -/
  buttonDisabled : Bool
  /-- delays (ms) of the timers the attempt schedules -/
  timers : List Nat
deriving Repr, DecidableEq

/-- The login branch of `handleSubmit`.  `originalText` is the button's
captured label; `qerr` injects a store failure on the attempt's query. -/
def handleSubmitLogin (db : DB) (qerr : Bool)
    (originalText role userId password : String) : LoginOutcome :=
  if role == "doctor" then
    let q : QuerySpec := ⟨"doctors", [("doctorId", userId), ("password", password)]⟩
    if qerr then
      { queries := [q], alert := some "Login error. Please try again.",
        sessionWrite := none, navigate := none,
        buttonLabel := originalText, buttonDisabled := false, timers := [1500] }
    else
      match runQuery db.doctors q.filters with
      | e :: _ =>
        { queries := [q], alert := none,
          sessionWrite := some ("currentUser", jsSet e.2 "id" e.1),
          navigate := some "/dashboard",
          buttonLabel := "Signing In...", buttonDisabled := true, timers := [1500] }
      | [] =>
        { queries := [q], alert := some "Invalid Doctor ID or password!",
          sessionWrite := none, navigate := none,
          buttonLabel := originalText, buttonDisabled := false, timers := [1500] }
  else if userId == "user1234" && password == "1234" && role == "user" then
    { queries := [], alert := none, sessionWrite := none,
      navigate := some "/user",
      buttonLabel := "Signing In...", buttonDisabled := true, timers := [1500] }
  else if role == "admin" then
    let q : QuerySpec := ⟨"admins", [("email", userId), ("password", password)]⟩
    if qerr then
      { queries := [q], alert := some "Login error. Please try again.",
        sessionWrite := none, navigate := none,
        buttonLabel := originalText, buttonDisabled := false, timers := [1500] }
    else
      match runQuery db.admins q.filters with
      | _ :: _ =>
        { queries := [q], alert := none, sessionWrite := none,
          navigate := some "/admindashboard",
          buttonLabel := "Signing In...", buttonDisabled := true, timers := [1500] }
      | [] =>
        { queries := [q], alert := some "Invalid admin credentials!",
          sessionWrite := none, navigate := none,
          buttonLabel := originalText, buttonDisabled := false, timers := [1500] }
  else
    { queries := [], alert := some "Invalid credentials or role mismatch!",
      sessionWrite := none, navigate := none,
      buttonLabel := originalText, buttonDisabled := false, timers := [1500] }

/-- The stored records a login attempt's `(role, identifier, secret)` triple
matches: the result of the role's collection query for the store-backed
roles, and nothing for any other role (no collection is consulted). -/
def matchingRecords (db : DB) (role userId password : String) :
    List (String × Doc) :=
  if role == "doctor" then
    runQuery db.doctors [("doctorId", userId), ("password", password)]
  else if role == "admin" then
    runQuery db.admins [("email", userId), ("password", password)]
  else []

/-! ## `Login.handleSubmit`: admin signup branch

Reads the five form fields; on `password !== confirmPassword` it alerts
`Passwords do not match!` and returns before the button is touched and
before any store call.  Otherwise it swaps the button to
`Creating Admin Account...`, disables it, builds the admin record and
issues `addDoc(collection(db, 'admins'), adminData)`; on success a 1500 ms
timer shows the success alert, restores the button and switches the active
tab back to `login`; on failure the catch alerts immediately (no timer)
and restores the button. -/

/-- Observable outcome of a completed admin-signup attempt. -/
structure SignupOutcome where
  /-- the alert shown to the user, if any -/
  alert : Option String
  /-- the store write `(collection, data)`, if any -/
  write : Option (String × Doc)
  /-- whether the submit button was modified at all during the attempt -/
  buttonTouched : Bool
  /-- the submit button's final label -/
  buttonLabel : String
  /-- whether the submit button ends disabled -/
  buttonDisabled : Bool
  /-- delays (ms) of the timers the attempt schedules -/
  timers : List Nat
  /-- the active tab after the attempt (`signup` is the tab it runs on) -/
  activeTab : String
deriving Repr, DecidableEq

/-- The signup branch of `handleSubmit`.  `werr` injects a store failure on
the `addDoc`; `createdAt` is the ISO timestamp `new Date().toISOString()`
and `nowMs` the value of `Date.now()` at the attempt. -/
def handleSubmitSignup (werr : Bool)
    (originalText firstName lastName email password confirmPassword
      createdAt : String) (nowMs : Nat) : SignupOutcome :=
  if password != confirmPassword then
    { alert := some "Passwords do not match!", write := none,
      buttonTouched := false, buttonLabel := originalText,
      buttonDisabled := false, timers := [], activeTab := "signup" }
  else
    let adminData : Doc :=
      [("firstName", firstName), ("lastName", lastName), ("email", email),
       ("password", password), ("role", "admin"), ("createdAt", createdAt),
       ("licenseId", "ADMIN_" ++ toString nowMs)]
    if werr then
      { alert := some "Error creating account. Please try again.",
        write := none,
        buttonTouched := true, buttonLabel := originalText,
        buttonDisabled := false, timers := [], activeTab := "signup" }
    else
      { alert := some "Admin account created successfully! Use your email and password to login.",
        write := some ("admins", adminData),
        buttonTouched := true, buttonLabel := originalText,
        buttonDisabled := false, timers := [1500], activeTab := "login" }

/-! ## AdminDashboard.jsx: doctor creation, deletion, and the live list -/

/-- Observable outcome of an admin-dashboard action (`handleCreateDoctor`
or `handleDeleteDoctor`): the `doctors` collection afterwards, the banner
state, the auto-dismiss timers scheduled, and the create dialog / form
state. -/
structure AdminActionOutcome where
  /-- the `doctors` collection after the action -/
  doctors : List (String × Doc)
  /-- the banner message set by the action -/
  alertMessage : String
  /-- whether the banner is shown -/
  showAlert : Bool
  /-- delays (ms) of the banner auto-dismiss timers scheduled -/
  dismissTimers : List Nat
  /-- whether the create-doctor dialog is open after the action -/
  dialogOpen : Bool
  /-- whether the create form was reset -/
  formReset : Bool
deriving Repr, DecidableEq

/-- `handleCreateDoctor`: builds the doctor record (identifier from
`generateDoctorId` on the random draw `fracDigits`), `addDoc`s it into
`doctors` (the store assigns `newDocId`), and on success closes the dialog,
shows the success banner for 3000 ms and resets the form; on a raised write
error (`werr`) shows the generic banner for 3000 ms. -/
def handleCreateDoctor (doctors : List (String × Doc)) (werr : Bool)
    (newDocId : String) (fracDigits : List Nat)
    (name email username password specialization createdAt createdBy :
      String) : AdminActionOutcome :=
  let doctorId := generateDoctorId fracDigits
  let doctorData : Doc :=
    [("doctorId", doctorId), ("name", name), ("email", email),
     ("username", username), ("password", password),
     ("specialization", specialization), ("role", "doctor"),
     ("createdAt", createdAt), ("createdBy", createdBy)]
  if werr then
    { doctors := doctors, alertMessage := "Error creating doctor account",
      showAlert := true, dismissTimers := [3000],
      dialogOpen := true, formReset := false }
  else
    { doctors := doctors ++ [(newDocId, doctorData)],
      alertMessage :=
        "Doctor " ++ name ++ " created successfully with ID: " ++ doctorId,
      showAlert := true, dismissTimers := [3000],
      dialogOpen := false, formReset := true }

/-- `handleDeleteDoctor`: `deleteDoc(doc(db, 'doctors', doctorId))` removes
the document with that store-assigned identifier; on success shows the named
confirmation banner for 3000 ms, on a raised delete error (`derr`) leaves the
collection unchanged and shows the generic banner for 3000 ms. -/
def handleDeleteDoctor (doctors : List (String × Doc)) (derr : Bool)
    (docId doctorName : String) : AdminActionOutcome :=
  if derr then
    { doctors := doctors, alertMessage := "Error deleting doctor",
      showAlert := true, dismissTimers := [3000],
      dialogOpen := false, formReset := false }
  else
    { doctors := doctors.filter (fun e => e.1 != docId),
      alertMessage := "Doctor " ++ doctorName ++ " has been deleted",
      showAlert := true, dismissTimers := [3000],
      dialogOpen := false, formReset := false }

/-- The row list the `onSnapshot` subscription derives from a `doctors`
snapshot: `{ id: doc.id, ...doc.data() }` per document, in snapshot order. -/
def doctorsListOf (snapshotDocs : List (String × Doc)) : List Doc :=
  snapshotDocs.map (fun e => jsSpread [("id", e.1)] e.2)

/-! ## Concrete stores used to instantiate the theorems -/

/-- A store with exactly one doctor record (the spec's concrete scenario). -/
def dbDoctorOne : DB :=
  { doctors :=
      [("D1", [("doctorId", "DR8A3F2B1C"), ("password", "pw123"),
               ("name", "Dr. A")])],
    admins := [] }

/-- A store with exactly one admin record, password `right`. -/
def dbAdminOne : DB :=
  { doctors := [],
    admins := [("A1", [("email", "a@b.com"), ("password", "right")])] }

/-- The empty store. -/
def dbEmpty : DB := { doctors := [], admins := [] }

/-! ## Theorems -/

/-- Uppercasing any base-36 digit character yields an uppercase base-36
alphanumeric character. -/
theorem isUpperBase36_toUpper_digitChar36 :
    ∀ d < 36, isUpperBase36 (Char.toUpper (digitChar36 d)) = true := by
  decide

/-- The characters of a generated doctor identifier: `D`, `R`, then the
first eight digit characters of the random draw, uppercased. -/
theorem generateDoctorId_toList (ds : List Nat) :
    (generateDoctorId ds).toList =
      'D' :: 'R' :: ((ds.map digitChar36).take 8).map Char.toUpper := by
  cases ds <;> rfl

/-- C2 counterexample: `Math.random()` can return `0.5`, whose base-36
rendering is `"0.i"` (digit list `[18]`); the generated identifier is then
`"DRI"`, which has one character after `DR`, not eight, so it does not match
the spec's pattern. -/
theorem generateDoctorId_pattern_cex :
    generateDoctorId [18] = "DRI" ∧
      specDoctorIdPattern (generateDoctorId [18]) = false := by
  decide

/-- C2 (amended): every generated doctor identifier starts with `DR`
followed by *at most* eight uppercase base-36 alphanumeric characters; the
suffix has exactly eight characters precisely when the random number's
base-36 fractional expansion has at least eight digits, and is shorter
otherwise. -/
theorem generateDoctorId_shape (ds : List Nat) (h : ∀ d ∈ ds, d < 36) :
    (generateDoctorId ds).toList.take 2 = ['D', 'R'] ∧
      ((generateDoctorId ds).toList.drop 2).length = min 8 ds.length ∧
      ∀ c ∈ (generateDoctorId ds).toList.drop 2, isUpperBase36 c = true := by
  rw [generateDoctorId_toList]
  refine ⟨rfl, by simp, ?_⟩
  intro c hc
  simp only [List.drop_succ_cons, List.drop_zero, List.mem_map] at hc
  obtain ⟨c0, hc0, rfl⟩ := hc
  have hd : ∃ d ∈ ds, digitChar36 d = c0 := by
    have := List.mem_of_mem_take hc0
    simpa [List.mem_map] using this
  obtain ⟨d, hdmem, rfl⟩ := hd
  exact isUpperBase36_toUpper_digitChar36 d (h d hdmem)

/-- Witness for C2 (amended) at the nine-digit draw
`[10, 11, 12, 13, 14, 15, 16, 17, 0]` (identifier `DRABCDEFGH`). -/
theorem generateDoctorId_shape_witness :
    (∀ d ∈ [10, 11, 12, 13, 14, 15, 16, 17, 0], d < 36) ∧
      ((generateDoctorId [10, 11, 12, 13, 14, 15, 16, 17, 0]).toList.take 2
          = ['D', 'R'] ∧
        ((generateDoctorId [10, 11, 12, 13, 14, 15, 16, 17, 0]).toList.drop
              2).length
          = min 8 ([10, 11, 12, 13, 14, 15, 16, 17, 0] : List Nat).length ∧
        ∀ c ∈ (generateDoctorId [10, 11, 12, 13, 14, 15, 16, 17, 0]).toList.drop
            2, isUpperBase36 c = true) :=
  ⟨by decide, generateDoctorId_shape [10, 11, 12, 13, 14, 15, 16, 17, 0]
    (by decide)⟩

/-- C1 counterexample: with exactly one stored admin record matching the
attempt, the admin branch navigates to `/admindashboard` but writes no
session marker, contradicting the claim that every unique-match login
writes `currentUser` with the record's fields. -/
theorem login_admin_session_cex :
    (runQuery dbAdminOne.admins
        [("email", "a@b.com"), ("password", "right")]).length = 1 ∧
      (handleSubmitLogin dbAdminOne false "Sign In" "admin" "a@b.com"
          "right").navigate = some "/admindashboard" ∧
      (handleSubmitLogin dbAdminOne false "Sign In" "admin" "a@b.com"
          "right").sessionWrite = none := by
  decide

/-- C1 (amended): a login attempt whose `(role, identifier, secret)` matches
exactly one stored record succeeds and navigates to the role's fixed route
(`/dashboard` for doctor, `/admindashboard` for admin) with no alert; the
doctor branch additionally writes the session marker `currentUser` holding
all of the record's fields plus its store-assigned document identifier,
while the admin branch writes no session marker. -/
theorem login_unique_match_routes (db : DB) (t userId password : String)
    (e : String × Doc) :
    (runQuery db.doctors [("doctorId", userId), ("password", password)]
        = [e] →
      (handleSubmitLogin db false t "doctor" userId password).navigate
          = some "/dashboard" ∧
        (handleSubmitLogin db false t "doctor" userId password).sessionWrite
          = some ("currentUser", jsSet e.2 "id" e.1) ∧
        (handleSubmitLogin db false t "doctor" userId password).alert
          = none) ∧
    (runQuery db.admins [("email", userId), ("password", password)] = [e] →
      (handleSubmitLogin db false t "admin" userId password).navigate
          = some "/admindashboard" ∧
        (handleSubmitLogin db false t "admin" userId password).sessionWrite
          = none ∧
        (handleSubmitLogin db false t "admin" userId password).alert
          = none) := by
  constructor <;> intro h <;> simp [handleSubmitLogin, h]

/-- Witness for C1 (amended): the spec's concrete doctor scenario
(`DR8A3F2B1C` / `pw123` against the one-doctor store). -/
theorem login_unique_match_routes_witness :
    (handleSubmitLogin dbDoctorOne false "Sign In" "doctor" "DR8A3F2B1C"
        "pw123").navigate = some "/dashboard" ∧
      (handleSubmitLogin dbDoctorOne false "Sign In" "doctor" "DR8A3F2B1C"
          "pw123").sessionWrite
        = some ("currentUser",
            jsSet [("doctorId", "DR8A3F2B1C"), ("password", "pw123"),
              ("name", "Dr. A")] "id" "D1") ∧
      (handleSubmitLogin dbDoctorOne false "Sign In" "doctor" "DR8A3F2B1C"
          "pw123").alert = none :=
  (login_unique_match_routes dbDoctorOne "Sign In" "DR8A3F2B1C" "pw123"
      ("D1", [("doctorId", "DR8A3F2B1C"), ("password", "pw123"),
        ("name", "Dr. A")])).1 (by decide)

/-- C3 counterexample: the attempt `(user, user1234, 1234)` matches zero
stored records (the store is empty and the user branch consults none), yet
the verifier shows no alert, navigates to `/user`, and leaves the submit
control disabled — so not every zero-match attempt fails resubmittably. -/
theorem login_user_backdoor_cex :
    matchingRecords dbEmpty "user" "user1234" "1234" = [] ∧
      (handleSubmitLogin dbEmpty false "Sign In" "user" "user1234"
          "1234").alert = none ∧
      (handleSubmitLogin dbEmpty false "Sign In" "user" "user1234"
          "1234").navigate = some "/user" ∧
      (handleSubmitLogin dbEmpty false "Sign In" "user" "user1234"
          "1234").buttonDisabled = true := by
  decide

/-- C3 (amended): every login attempt that matches zero stored records —
except the hard-coded user-role pair `(user, user1234, 1234)` — fails with
a user-visible alert, writes no session marker, navigates nowhere, and
re-enables the submit control with its original label. -/
theorem login_no_match_fails (db : DB) (t role userId password : String)
    (hmagic : ¬(role = "user" ∧ userId = "user1234" ∧ password = "1234"))
    (hzero : matchingRecords db role userId password = []) :
    (∃ msg, (handleSubmitLogin db false t role userId password).alert
        = some msg) ∧
      (handleSubmitLogin db false t role userId password).sessionWrite
        = none ∧
      (handleSubmitLogin db false t role userId password).navigate = none ∧
      (handleSubmitLogin db false t role userId password).buttonDisabled
        = false ∧
      (handleSubmitLogin db false t role userId password).buttonLabel
        = t := by
  unfold matchingRecords at hzero
  unfold handleSubmitLogin
  by_cases hdoc : role = "doctor"
  · subst hdoc
    simp only [beq_self_eq_true, if_true] at hzero ⊢
    simp [hzero]
  · rw [if_neg (by simpa using hdoc)] at hzero
    rw [if_neg (by simpa using hdoc)]
    by_cases hadm : role = "admin"
    · subst hadm
      simp only [beq_self_eq_true, if_true] at hzero ⊢
      have : ¬(userId == "user1234" && password == "1234"
          && ("admin" : String) == "user") = true := by simp
      rw [if_neg this]
      simp [hzero]
    · rw [if_neg (by simpa using hadm)] at hzero
      have : ¬(userId == "user1234" && password == "1234"
          && role == "user") = true := by
        intro hcontra
        simp only [Bool.and_eq_true, beq_iff_eq] at hcontra
        exact hmagic ⟨hcontra.2, hcontra.1.1, hcontra.1.2⟩
      rw [if_neg this]
      rw [if_neg (by simpa using hadm)]
      simp

/-- Witness for C3 (amended): the spec's concrete admin scenario — stored
admin password `right`, attempted secret `wrong`. -/
theorem login_no_match_fails_witness :
    (∃ msg, (handleSubmitLogin dbAdminOne false "Sign In" "admin" "a@b.com"
        "wrong").alert = some msg) ∧
      (handleSubmitLogin dbAdminOne false "Sign In" "admin" "a@b.com"
          "wrong").sessionWrite = none ∧
      (handleSubmitLogin dbAdminOne false "Sign In" "admin" "a@b.com"
          "wrong").navigate = none ∧
      (handleSubmitLogin dbAdminOne false "Sign In" "admin" "a@b.com"
          "wrong").buttonDisabled = false ∧
      (handleSubmitLogin dbAdminOne false "Sign In" "admin" "a@b.com"
          "wrong").buttonLabel = "Sign In" :=
  login_no_match_fails dbAdminOne "Sign In" "admin" "a@b.com" "wrong"
    (by decide) (by decide)

/-- C5 counterexample: the user-role branch rejects the second literal pair
present in the repository's superseded login variant (`doctor123` /
`password`), so it does not accept two literal identifier-secret
combinations. -/
theorem login_user_two_pairs_cex :
    (handleSubmitLogin dbEmpty false "Sign In" "user" "doctor123"
        "password").navigate = none ∧
      (handleSubmitLogin dbEmpty false "Sign In" "user" "doctor123"
          "password").alert
        = some "Invalid credentials or role mismatch!" := by
  decide

/-- C5 (amended): the credential verifier's branch for the user/patient role
hard-codes a single literal user/password pair — it navigates (to `/user`)
exactly when the identifier is `user1234` and the secret is `1234` — and
issues no query against any store collection. -/
theorem login_user_branch_single_pair (db : DB) (qerr : Bool)
    (t userId password : String) :
    ((handleSubmitLogin db qerr t "user" userId password).navigate
        = some "/user" ↔ (userId = "user1234" ∧ password = "1234")) ∧
      (handleSubmitLogin db qerr t "user" userId password).queries = [] := by
  unfold handleSubmitLogin
  by_cases h1 : userId = "user1234"
  · by_cases h2 : password = "1234"
    · subst h1; subst h2; simp
    · simp [h1, h2]
  · simp [h1]

/-- The doctor branch issues its one equality query whatever the store
returns or raises. -/
theorem login_doctor_queries (db : DB) (qerr : Bool)
    (t userId password : String) :
    (handleSubmitLogin db qerr t "doctor" userId password).queries
      = [⟨"doctors", [("doctorId", userId), ("password", password)]⟩] := by
  cases qerr
  · rcases hr : runQuery db.doctors [("doctorId", userId),
        ("password", password)] with _ | ⟨e, es⟩ <;>
      simp [handleSubmitLogin, hr]
  · simp [handleSubmitLogin]

/-- The admin branch issues its one equality query whatever the store
returns or raises. -/
theorem login_admin_queries (db : DB) (qerr : Bool)
    (t userId password : String) :
    (handleSubmitLogin db qerr t "admin" userId password).queries
      = [⟨"admins", [("email", userId), ("password", password)]⟩] := by
  cases qerr
  · rcases hr : runQuery db.admins [("email", userId),
        ("password", password)] with _ | ⟨e, es⟩ <;>
      simp [handleSubmitLogin, hr]
  · simp [handleSubmitLogin]

/-- C6: on a store-backed login attempt, a raised query error yields the
generic retry-later alert and a returned empty result yields an
invalid-credentials alert distinct from it; in both cases the attempt
terminates with the submit control re-enabled under its original label,
no session write, no navigation, and exactly one query issued — nothing is
retried. -/
theorem login_error_kinds (db : DB) (t role userId password : String)
    (hrole : role = "doctor" ∨ role = "admin") :
    ((handleSubmitLogin db true t role userId password).alert
          = some "Login error. Please try again." ∧
        (handleSubmitLogin db true t role userId password).sessionWrite
          = none ∧
        (handleSubmitLogin db true t role userId password).navigate = none ∧
        (handleSubmitLogin db true t role userId password).buttonDisabled
          = false ∧
        (handleSubmitLogin db true t role userId password).buttonLabel = t ∧
        (handleSubmitLogin db true t role userId password).queries.length
          = 1) ∧
      (matchingRecords db role userId password = [] →
        ∃ msg,
          (handleSubmitLogin db false t role userId password).alert
              = some msg ∧
            msg ≠ "Login error. Please try again." ∧
            (handleSubmitLogin db false t role userId
                password).sessionWrite = none ∧
            (handleSubmitLogin db false t role userId
                password).buttonDisabled = false ∧
            (handleSubmitLogin db false t role userId password).buttonLabel
              = t ∧
            (handleSubmitLogin db false t role userId
                password).queries.length = 1) := by
  rcases hrole with rfl | rfl
  · refine ⟨by simp [handleSubmitLogin], fun hz => ?_⟩
    simp only [matchingRecords, beq_self_eq_true, if_true] at hz
    exact ⟨"Invalid Doctor ID or password!",
      by simp [handleSubmitLogin, hz], by decide,
      by simp [handleSubmitLogin, hz], by simp [handleSubmitLogin, hz],
      by simp [handleSubmitLogin, hz], by simp [handleSubmitLogin, hz]⟩
  · refine ⟨by simp [handleSubmitLogin], fun hz => ?_⟩
    simp only [matchingRecords, String.reduceBEq, Bool.false_eq_true,
      if_false, beq_self_eq_true, if_true] at hz
    exact ⟨"Invalid admin credentials!",
      by simp [handleSubmitLogin, hz], by decide,
      by simp [handleSubmitLogin, hz], by simp [handleSubmitLogin, hz],
      by simp [handleSubmitLogin, hz], by simp [handleSubmitLogin, hz]⟩

/-- Witness for C6 at the one-admin store with a wrong secret (empty
result) and with an injected store failure. -/
theorem login_error_kinds_witness :
    (handleSubmitLogin dbAdminOne true "Sign In" "admin" "a@b.com"
          "wrong").alert = some "Login error. Please try again." ∧
      (handleSubmitLogin dbAdminOne false "Sign In" "admin" "a@b.com"
          "wrong").alert = some "Invalid admin credentials!" := by
  have h := login_error_kinds dbAdminOne "Sign In" "admin" "a@b.com" "wrong"
    (Or.inr rfl)
  refine ⟨h.1.1, ?_⟩
  obtain ⟨msg, hmsg, -⟩ := h.2 (by decide)
  have : msg = "Invalid admin credentials!" := by
    have hval : (handleSubmitLogin dbAdminOne false "Sign In" "admin"
        "a@b.com" "wrong").alert = some "Invalid admin credentials!" := by
      decide
    have := hval.symm.trans hmsg
    exact (Option.some.inj this).symm
  rw [← this]
  exact hmsg

/-- C7: every store-backed login attempt issues exactly one equality query,
filtering on exactly the two fields `(doctorId, password)` against
`doctors` for the doctor role and `(email, password)` against `admins` for
the admin role. -/
theorem login_query_two_fields (db : DB) (qerr : Bool)
    (t userId password : String) :
    (handleSubmitLogin db qerr t "doctor" userId password).queries
        = [⟨"doctors", [("doctorId", userId), ("password", password)]⟩] ∧
      (handleSubmitLogin db qerr t "admin" userId password).queries
        = [⟨"admins", [("email", userId), ("password", password)]⟩] ∧
      ∀ q ∈ (handleSubmitLogin db qerr t "doctor" userId password).queries
          ++ (handleSubmitLogin db qerr t "admin" userId password).queries,
        q.filters.length = 2 := by
  refine ⟨login_doctor_queries db qerr t userId password,
    login_admin_queries db qerr t userId password, ?_⟩
  intro q hq
  rw [login_doctor_queries db qerr t userId password,
    login_admin_queries db qerr t userId password] at hq
  simp only [List.cons_append, List.nil_append, List.mem_cons,
    List.not_mem_nil, or_false] at hq
  rcases hq with rfl | rfl <;> rfl

/-- C4: whenever the two password fields differ, the admin signup handler
alerts `Passwords do not match!` and aborts without issuing any create
operation against the store, whether or not the store would have failed. -/
theorem signup_mismatch_no_write (werr : Bool)
    (t firstName lastName email password confirmPassword createdAt : String)
    (nowMs : Nat) (h : password ≠ confirmPassword) :
    (handleSubmitSignup werr t firstName lastName email password
        confirmPassword createdAt nowMs).write = none ∧
      (handleSubmitSignup werr t firstName lastName email password
          confirmPassword createdAt nowMs).alert
        = some "Passwords do not match!" := by
  simp [handleSubmitSignup, h]

/-- Witness for C4 at the spec's concrete scenario
(`abc123` / `abc124`). -/
theorem signup_mismatch_no_write_witness :
    (handleSubmitSignup false "Sign Up" "Ann" "Bee" "a@b.com" "abc123"
        "abc124" "2025-01-01T00:00:00.000Z" 1735689600000).write = none ∧
      (handleSubmitSignup false "Sign Up" "Ann" "Bee" "a@b.com" "abc123"
          "abc124" "2025-01-01T00:00:00.000Z" 1735689600000).alert
        = some "Passwords do not match!" :=
  signup_mismatch_no_write false "Sign Up" "Ann" "Bee" "a@b.com" "abc123"
    "abc124" "2025-01-01T00:00:00.000Z" 1735689600000 (by decide)

/-- C9: on an admin-signup password mismatch the handler returns before the
submit control is touched — the button is never modified, stays enabled
under its original label, no timer is scheduled, and the active tab is
unchanged. -/
theorem signup_mismatch_ui_untouched (werr : Bool)
    (t firstName lastName email password confirmPassword createdAt : String)
    (nowMs : Nat) (h : password ≠ confirmPassword) :
    (handleSubmitSignup werr t firstName lastName email password
        confirmPassword createdAt nowMs).buttonTouched = false ∧
      (handleSubmitSignup werr t firstName lastName email password
          confirmPassword createdAt nowMs).buttonLabel = t ∧
      (handleSubmitSignup werr t firstName lastName email password
          confirmPassword createdAt nowMs).buttonDisabled = false ∧
      (handleSubmitSignup werr t firstName lastName email password
          confirmPassword createdAt nowMs).timers = [] ∧
      (handleSubmitSignup werr t firstName lastName email password
          confirmPassword createdAt nowMs).activeTab = "signup" := by
  simp [handleSubmitSignup, h]

/-- Witness for C9 at a concrete mismatching pair. -/
theorem signup_mismatch_ui_untouched_witness :
    (handleSubmitSignup true "Sign Up" "Cay" "Dee" "c@d.com" "pw1" "pw2"
        "2025-02-02T00:00:00.000Z" 1738454400000).buttonTouched = false ∧
      (handleSubmitSignup true "Sign Up" "Cay" "Dee" "c@d.com" "pw1" "pw2"
          "2025-02-02T00:00:00.000Z" 1738454400000).buttonLabel
        = "Sign Up" ∧
      (handleSubmitSignup true "Sign Up" "Cay" "Dee" "c@d.com" "pw1" "pw2"
          "2025-02-02T00:00:00.000Z" 1738454400000).buttonDisabled
        = false ∧
      (handleSubmitSignup true "Sign Up" "Cay" "Dee" "c@d.com" "pw1" "pw2"
          "2025-02-02T00:00:00.000Z" 1738454400000).timers = [] ∧
      (handleSubmitSignup true "Sign Up" "Cay" "Dee" "c@d.com" "pw1" "pw2"
          "2025-02-02T00:00:00.000Z" 1738454400000).activeTab = "signup" :=
  signup_mismatch_ui_untouched true "Sign Up" "Cay" "Dee" "c@d.com" "pw1"
    "pw2" "2025-02-02T00:00:00.000Z" 1738454400000 (by decide)

/-- C8: a successful doctor deletion removes exactly the documents bearing
the given store-assigned identifier (every other document is retained
unchanged, and no surviving document bears that identifier) and shows the
named confirmation banner; a failed deletion leaves the collection
untouched and shows the generic error banner. -/
theorem delete_doctor_exact (doctors : List (String × Doc))
    (docId doctorName : String) :
    (∀ e, e ∈ (handleDeleteDoctor doctors false docId doctorName).doctors
        ↔ e ∈ doctors ∧ e.1 ≠ docId) ∧
      docId ∉ ((handleDeleteDoctor doctors false docId
          doctorName).doctors).map (fun e => e.1) ∧
      (handleDeleteDoctor doctors false docId doctorName).alertMessage
        = "Doctor " ++ doctorName ++ " has been deleted" ∧
      (handleDeleteDoctor doctors false docId doctorName).showAlert
        = true ∧
      (handleDeleteDoctor doctors true docId doctorName).doctors
        = doctors ∧
      (handleDeleteDoctor doctors true docId doctorName).alertMessage
        = "Error deleting doctor" ∧
      (handleDeleteDoctor doctors true docId doctorName).showAlert
        = true := by
  refine ⟨?_, ?_, rfl, rfl, rfl, rfl, rfl⟩
  · intro e
    simp [handleDeleteDoctor, List.mem_filter]
  · simp [handleDeleteDoctor, List.mem_filter]

/-- C10: every outcome of doctor creation and doctor deletion — success and
failure alike — shows the alert banner and schedules exactly one
auto-dismiss timer with the same fixed 3000 ms delay. -/
theorem admin_banner_uniform_timeout (doctors : List (String × Doc))
    (flag : Bool) (newDocId : String) (fracDigits : List Nat)
    (name email username password specialization createdAt createdBy
      docId doctorName : String) :
    ((handleCreateDoctor doctors flag newDocId fracDigits name email
          username password specialization createdAt createdBy).showAlert
        = true ∧
      (handleCreateDoctor doctors flag newDocId fracDigits name email
          username password specialization createdAt
          createdBy).dismissTimers = [3000]) ∧
    ((handleDeleteDoctor doctors flag docId doctorName).showAlert = true ∧
      (handleDeleteDoctor doctors flag docId doctorName).dismissTimers
        = [3000]) := by
  cases flag <;> simp [handleCreateDoctor, handleDeleteDoctor]

end AuDite
